import Mathlib

/-!
# Verification of the f1-telemetry-tui state aggregator

Shallow embedding of the state-aggregation engine of `src/app.rs` (and the
presentation helpers `to_lap_time`, `wear_color_percentage`, and the
last-name extraction used by the position table), together with theorems
settling the specification claims.

Modelling conventions:
* Rust `u8`/`u16`/`usize` values are `Nat` (the aggregator never performs
  arithmetic on them, it only copies and compares them).
* Rust `f32` values that are only copied, never computed with
  (`throttle`, `brake`, speed-trap speed), are carried as `Rat`.
* `std::time::Duration` is modelled at millisecond precision (`Dur`),
  which is exact for every value the claims mention. The `as_secs_f32`
  conversion used by `to_lap_time` is modelled exactly: every finite
  nonnegative f32 value is an integer multiple of 2^(-149), so float
  values are carried as natural-number numerators over the fixed
  denominator 2^149, and every Rust f32 conversion and operation rounds
  to nearest, ties to even (`roundF32`). This is faithful for every
  duration within `Duration`'s u64-seconds range, where the f32
  conversion never overflows.
* A Rust panic (`unwrap` failure / out-of-bounds index) is modelled by
  `Option`: `none` is the abort branch.
-/

namespace F1Tui

/-- Tyre wear block of a `CarStatusData` payload entry (`tyres_wear`):
one percentage per tyre corner. -/
structure TyresWear where
  rear_left : Nat
  rear_right : Nat
  front_left : Nat
  front_right : Nat
deriving DecidableEq, Repr

/-- The per-car payload entry of a CarStatus packet, restricted to the
fields the aggregator reads: the visual tyre compound (a label via
`to_string` in the source) and the four corner wear values. -/
structure CarStatusData where
  visual_tyre_compound : String
  tyres_wear : TyresWear
deriving DecidableEq, Repr

/-- `CarStatus` from `src/app.rs` lines 43-50: the aggregator's per-car
summary stored in the car-status roster. -/
structure CarStatus where
  tyre : String
  rear_left_tyre : Nat
  rear_right_tyre : Nat
  front_left_tyre : Nat
  front_right_tyre : Nat
deriving DecidableEq, Repr

/-- `DriverDetails` from `src/app.rs` lines 20-27. The `driver` field is the
driver's display name (`driver.name()` in the source), `name` the full name. -/
structure DriverDetails where
  driver : String
  team : String
  race_number : Nat
  nationality : Nat
  name : String
deriving DecidableEq, Repr

/-- Millisecond-precision model of `std::time::Duration`. -/
structure Dur where
  millis : Nat
deriving DecidableEq, Repr

/-- `Duration::as_secs`: whole seconds, truncating. -/
def Dur.as_secs (d : Dur) : Nat := d.millis / 1000

/-- `PositionTable` from `src/app.rs` lines 29-41: one row of the live
position table. -/
structure PositionTable where
  is_player : Bool
  position : Nat
  driver : DriverDetails
  best_lap : String
  last_lap : String
  s1 : String
  s2 : String
  s3 : String
  tyre : String
  current_lap_num : Nat
deriving DecidableEq, Repr

/-- `PlayerTelemetry` from `src/app.rs` lines 52-62. -/
structure PlayerTelemetry where
  speed : Nat
  throttle : Rat
  brake : Rat
  gear : Int
  suggested_gear : Int
  engine_rpm : Nat
  drs : Bool
  rev_lights_percent : Nat
deriving DecidableEq, Repr

/-- `AppData` from `src/app.rs` lines 64-75: the aggregate race state. -/
structure AppData where
  player_index : Nat
  player_details : Option DriverDetails
  player_car_status : Option CarStatusData
  player_telemetry : Option PlayerTelemetry
  positions_table : List PositionTable
  participants : List DriverDetails
  car_status : List CarStatus
  speed_trap : Option Rat
deriving DecidableEq, Repr

/-- The packet header: every packet carries the observer's own car-slot
index (`player_car_index`). -/
structure PacketHeader where
  player_car_index : Nat
deriving DecidableEq, Repr

/-- CarStatus packet: header plus one `CarStatusData` per car slot. -/
structure CarStatusPacket where
  header : PacketHeader
  car_status_data : List CarStatusData
deriving DecidableEq, Repr

/-- Per-car payload entry of a CarTelemetry packet (fields the aggregator
reads). -/
structure CarTelemetryEntry where
  speed : Nat
  throttle : Rat
  brake : Rat
  gear : Int
  engine_rpm : Nat
  drs : Bool
  rev_lights_percent : Nat
deriving DecidableEq, Repr

/-- CarTelemetry packet: header, per-car entries, and the packet-level
suggested gear. -/
structure CarTelemetryPacket where
  header : PacketHeader
  car_telemetry_data : List CarTelemetryEntry
  suggested_gear : Int
deriving DecidableEq, Repr

/-- Per-car payload entry of a Participants packet. `driver_name` and
`team_name` model `driver.name()` / `team.name()` of the source. -/
structure ParticipantEntry where
  driver_name : String
  team_name : String
  race_number : Nat
  nationality : Nat
  name : String
deriving DecidableEq, Repr

/-- Participants packet. -/
structure ParticipantsPacket where
  header : PacketHeader
  participants : List ParticipantEntry
deriving DecidableEq, Repr

/-- Per-car payload entry of a Lap packet, restricted to the fields the
aggregator reads. `car_position` is the classification rank (0 = not
classified). -/
structure LapDataEntry where
  car_position : Nat
  best_lap_time : Dur
  last_lap_time : Dur
  best_lap_sector_1_time : Dur
  current_lap_num : Nat
deriving DecidableEq, Repr

/-- Lap packet. -/
structure LapPacket where
  header : PacketHeader
  lap_data : List LapDataEntry
deriving DecidableEq, Repr

/-- SpeedTrap event payload: the measured car's slot and its speed. -/
structure SpeedTrapData where
  vehicle_index : Nat
  speed : Rat
deriving DecidableEq, Repr

/-- Event payload: the SpeedTrap variant the aggregator handles, and a
catch-all for every other event kind (ignored by the source's `_ => {}`). -/
inductive Event where
  | SpeedTrap (st : SpeedTrapData)
  | OtherEvent
deriving DecidableEq, Repr

/-- Event packet. -/
structure EventPacket where
  header : PacketHeader
  event : Event
deriving DecidableEq, Repr

/-- The closed set of packet variants consumed by the aggregator
(`Packet2020` in the source); `OtherPacket` models the `_ => {}` arm. -/
inductive Packet2020 where
  | Motion
  | CarStatus (p : CarStatusPacket)
  | CarTelemetry (p : CarTelemetryPacket)
  | Participants (p : ParticipantsPacket)
  | Lap (p : LapPacket)
  | Event (p : EventPacket)
  | OtherPacket
deriving DecidableEq, Repr

/-- `App::new` (`src/app.rs` lines 83-96): the initial state. The stored
player-slot index starts at the sentinel 255, every roster empty. -/
def initData : AppData :=
  { player_index := 255
    player_details := none
    player_car_status := none
    player_telemetry := none
    positions_table := []
    participants := []
    car_status := []
    speed_trap := none }

/-- Left-pad the fractional milliseconds to three digits, as Rust's
`{:.3}` renders the fractional part. -/
def pad3 (n : Nat) : String :=
  if n < 10 then "00" ++ Nat.repr n
  else if n < 100 then "0" ++ Nat.repr n
  else Nat.repr n

/-- Round the nonnegative rational `a / b` to the nearest natural
number, ties to even (the IEEE-754 default rounding, also used by
Rust's fixed-precision float formatting). -/
def rne (a b : Nat) : Nat :=
  let n0 := a / b
  let twice := 2 * (a % b)
  if twice < b then n0
  else if b < twice then n0 + 1
  else if n0 % 2 = 0 then n0 else n0 + 1

/-- Floor of the base-2 logarithm, with an explicit fuel argument so it
evaluates by plain structural reduction (the fuel only needs to cover
the bit length of `n`, so passing `n` itself always suffices). -/
def log2fuel : Nat → Nat → Nat
  | 0, _ => 0
  | fuel + 1, n => if 2 ≤ n then log2fuel fuel (n / 2) + 1 else 0

/-- Floor of the base-2 logarithm of `n` (0 for `n = 0`). -/
def log2floor (n : Nat) : Nat := log2fuel n n

/-- The binade of the positive rational `a / b`: the largest `e` with
`2 ^ e ≤ a / b`. `log2floor a - log2floor b` is either the answer or one
too large, settled by one exact comparison. -/
def binade (a b : Nat) : Int :=
  let c : Int := (log2floor a : Int) - (log2floor b : Int)
  let pow2le : Bool :=
    if 0 ≤ c then decide (b * 2 ^ c.toNat ≤ a) else decide (b ≤ a * 2 ^ (-c).toNat)
  if pow2le then c else c - 1

/-- Round the nonnegative rational `a / b` to the value of the nearest
IEEE-754 single-precision float (round to nearest, ties to even): the
significand has 24 bits, so in the binade `[2^e, 2^(e+1))` the
representable values are the multiples of `2^(e-23)`, clamped below to
the subnormal grid `2^(-149)`. The result is returned as the numerator
over the fixed denominator `2^149`. Overflow to infinity is not
modelled; it is unreachable from `Duration`'s u64-seconds range. -/
def roundF32 (a b : Nat) : Nat :=
  if a = 0 then 0
  else
    let g : Int := max (binade a b - 23) (-149)
    let G : Nat := (g + 149).toNat
    rne (a * 2 ^ 149) (b * 2 ^ G) * 2 ^ G

/-- `Duration::as_secs_f32` (Rust std):
`self.secs as f32 + (self.subsec_nanos() as f32) / (NANOS_PER_SEC as f32)`,
each conversion and operation rounding to nearest f32 (`10^9` is exactly
representable, so `NANOS_PER_SEC as f32` is `10^9` itself). At
millisecond precision `subsec_nanos = (millis % 1000) * 10^6`. The
result is the f32 value as a numerator over `2^149`. -/
def Dur.as_secs_f32_num (d : Dur) : Nat :=
  let s := roundF32 d.as_secs 1
  let nanos := roundF32 ((d.millis % 1000) * 1000000) 1
  let frac := roundF32 nanos (1000000000 * 2 ^ 149)
  roundF32 (s + frac) (2 ^ 149)

/-- Rust `%` on f32 (`fmod`) by `60.0`, on a nonnegative f32 value given
as a numerator over `2^149`: the remainder is exact and always
representable, so no re-rounding happens. -/
def f32Rem60 (n : Nat) : Nat := n % (60 * 2 ^ 149)

/-- Rust `{:.3}` on a nonnegative f32 value given as a numerator over
`2^149`: the float's exact value rounded to three decimal places, ties
to even, rendered with exactly three fraction digits. -/
def fmt3 (n : Nat) : String :=
  let m := rne (1000 * n) (2 ^ 149)
  Nat.repr (m / 1000) ++ "." ++ pad3 (m % 1000)

/-- `to_lap_time` (`src/app.rs` lines 489-493):
minutes from the integer computation `(as_secs / 60) % 60`, seconds
from the f32 computation `as_secs_f32() % 60.0` rendered with `{:.3}`,
joined by `format!("{}:{:.3}", mins, secs)`. -/
def to_lap_time (lap_time : Dur) : String :=
  let mins := (lap_time.as_secs / 60) % 60
  Nat.repr mins ++ ":" ++ fmt3 (f32Rem60 lap_time.as_secs_f32_num)

/-- The colors the formatter uses (subset of the `tui` palette). -/
inductive Color where
  | Green
  | Yellow
  | Red
deriving DecidableEq, Repr

/-- `wear_color_percentage` (`src/app.rs` lines 495-501):
`0..=50` green, `51..=70` yellow, everything above red. -/
def wear_color_percentage (value : Nat) : Color :=
  if value ≤ 50 then Color.Green
  else if value ≤ 70 then Color.Yellow
  else Color.Red

/-- Split a character list at every space, mirroring Rust's
`str::split(" ")` (adjacent separators yield empty tokens). -/
def splitSp : List Char → List (List Char)
  | [] => [[]]
  | c :: cs =>
    match splitSp cs with
    | [] => [[]]
    | w :: ws => if c = ' ' then [] :: w :: ws else (c :: w) :: ws

/-- The position-table last-name extraction (`src/app.rs` lines 442-444):
`driver_name.split(" ").collect::<Vec<_>>()[1]`. Indexing `[1]` panics
when the split yields fewer than two tokens, so the result is `Option`:
`none` is the panic branch. -/
def last_name (driver_name : String) : Option String :=
  ((splitSp driver_name.data).get? 1).map List.asString

/-- Convert one Participants payload entry into the stored
`DriverDetails`, as the map in the Participants arm does. -/
def toDriverDetails (p : ParticipantEntry) : DriverDetails :=
  { driver := p.driver_name
    team := p.team_name
    race_number := p.race_number
    nationality := p.nationality
    name := p.name }

/-- Build the position rows from the (index, lap-entry) pairs that
survived the rank filter: for each pair the Lap arm looks the slot up in
both rosters with `.get(i).unwrap()`; a failed lookup is the panic
branch (`none`). Mirrors `src/app.rs` lines 185-212. -/
def buildRows (player_index : Nat) (participants : List DriverDetails)
    (car_status : List CarStatus) :
    List (Nat × LapDataEntry) → Option (List PositionTable)
  | [] => some []
  | (i, lap) :: rest =>
    match participants.get? i, car_status.get? i,
        buildRows player_index participants car_status rest with
    | some driver, some car, some tail =>
      some
        ({ is_player := i == player_index
           position := lap.car_position
           driver :=
             { driver := driver.driver
               team := driver.team
               race_number := driver.race_number
               nationality := driver.nationality
               name := driver.name }
           best_lap := to_lap_time lap.best_lap_time
           last_lap := to_lap_time lap.last_lap_time
           s1 := to_lap_time lap.best_lap_sector_1_time
           s2 := to_lap_time lap.best_lap_sector_1_time
           s3 := to_lap_time lap.best_lap_sector_1_time
           tyre := car.tyre
           current_lap_num := lap.current_lap_num } :: tail)
    | _, _, _ => none

/-- Stable ascending insertion by `position`, used to model
`sort_by_key(|p| p.position)`. -/
def insertRow (a : PositionTable) : List PositionTable → List PositionTable
  | [] => [a]
  | b :: l => if b.position ≤ a.position then b :: insertRow a l else a :: b :: l

/-- Stable ascending sort by `position`
(`data.positions_table.sort_by_key(|p| p.position)`). -/
def sortRows : List PositionTable → List PositionTable
  | [] => []
  | a :: l => insertRow a (sortRows l)

/-- One step of the state aggregator: `App::start`'s per-packet match
(`src/app.rs` lines 108-229), as a function `(state, packet) → state`.
`none` models the panic of the Lap arm's `unwrap`s; every other arm is
total. -/
def update (data : AppData) : Packet2020 → Option AppData
  | Packet2020.Motion => some data
  | Packet2020.CarStatus pkt =>
    let player_index := pkt.header.player_car_index
    let d1 :=
      match pkt.car_status_data.get? player_index with
      | some player_car_status => { data with player_car_status := some player_car_status }
      | none => data
    some
      { d1 with
        car_status :=
          pkt.car_status_data.map fun c =>
            { tyre := c.visual_tyre_compound
              rear_left_tyre := c.tyres_wear.rear_left
              rear_right_tyre := c.tyres_wear.rear_left
              front_left_tyre := c.tyres_wear.rear_left
              front_right_tyre := c.tyres_wear.rear_left } }
  | Packet2020.CarTelemetry pkt =>
    let player_index := pkt.header.player_car_index
    match pkt.car_telemetry_data.get? player_index with
    | some t =>
      some
        { data with
          player_telemetry :=
            some
              { speed := t.speed
                throttle := t.throttle
                brake := t.brake
                gear := t.gear
                suggested_gear := pkt.suggested_gear
                engine_rpm := t.engine_rpm
                drs := t.drs
                rev_lights_percent := t.rev_lights_percent } }
    | none => some data
  | Packet2020.Participants pkt =>
    if data.participants.isEmpty then
      let player_index := pkt.header.player_car_index
      let d1 :=
        match pkt.participants.get? player_index with
        | some player_details =>
          { data with player_details := some (toDriverDetails player_details) }
        | none => data
      some
        { d1 with
          participants :=
            (pkt.participants.filter fun f => 0 < f.race_number).map toDriverDetails }
    else some data
  | Packet2020.Lap pkt =>
    if !data.participants.isEmpty && !data.car_status.isEmpty then
      let player_index := pkt.header.player_car_index
      match buildRows player_index data.participants data.car_status
          (pkt.lap_data.enum.filter fun x => 0 < x.2.car_position) with
      | some rows => some { data with positions_table := sortRows rows }
      | none => none
    else some data
  | Packet2020.Event pkt =>
    let player_index := pkt.header.player_car_index
    match pkt.event with
    | Event.SpeedTrap st =>
      if st.vehicle_index = player_index then some { data with speed_trap := some st.speed }
      else some data
    | Event.OtherEvent => some data
  | Packet2020.OtherPacket => some data

/-- The states reachable from `App::new` by applying packets (only
non-panicking applications produce a next state). -/
inductive Reachable : AppData → Prop where
  | init : Reachable initData
  | step {s : AppData} {p : Packet2020} {s' : AppData} :
      Reachable s → update s p = some s' → Reachable s'

/-- Row order used by the position table: ascending classification rank. -/
def rowLE (a b : PositionTable) : Prop := a.position ≤ b.position

theorem mem_insertRow {x a : PositionTable} {l : List PositionTable} :
    x ∈ insertRow a l ↔ x = a ∨ x ∈ l := by
  induction l with
  | nil => simp [insertRow]
  | cons b t ih =>
    by_cases hb : b.position ≤ a.position
    · rw [insertRow, if_pos hb]
      simp only [List.mem_cons, ih]
      tauto
    · rw [insertRow, if_neg hb]
      exact List.mem_cons

theorem mem_sortRows {x : PositionTable} {l : List PositionTable} :
    x ∈ sortRows l ↔ x ∈ l := by
  induction l with
  | nil => simp [sortRows]
  | cons a t ih => simp [sortRows, mem_insertRow, ih]

theorem sorted_insertRow {a : PositionTable} {l : List PositionTable}
    (h : l.Sorted rowLE) : (insertRow a l).Sorted rowLE := by
  induction l with
  | nil => simp [insertRow, List.sorted_singleton]
  | cons b t ih =>
    rw [List.sorted_cons] at h
    by_cases hb : b.position ≤ a.position
    · rw [insertRow, if_pos hb, List.sorted_cons]
      refine ⟨fun x hx => ?_, ih h.2⟩
      rcases mem_insertRow.mp hx with rfl | hx
      · exact hb
      · exact h.1 x hx
    · rw [insertRow, if_neg hb, List.sorted_cons]
      refine ⟨fun x hx => ?_, List.sorted_cons.mpr h⟩
      rcases List.mem_cons.mp hx with rfl | hx
      · exact Nat.le_of_not_le hb
      · exact Nat.le_trans (Nat.le_of_not_le hb) (h.1 x hx)

theorem sorted_sortRows (l : List PositionTable) : (sortRows l).Sorted rowLE := by
  induction l with
  | nil => simp [sortRows, List.sorted_nil]
  | cons a t ih => exact sorted_insertRow ih

theorem buildRows_pos {player_index : Nat} {participants : List DriverDetails}
    {car_status : List CarStatus} :
    ∀ {l : List (Nat × LapDataEntry)} {rows : List PositionTable},
      buildRows player_index participants car_status l = some rows →
      (∀ x ∈ l, 0 < x.2.car_position) → ∀ e ∈ rows, 0 < e.position := by
  intro l
  induction l with
  | nil =>
    intro rows h _
    cases h
    intro e he
    cases he
  | cons hd tl ih =>
    intro rows h hall e he
    obtain ⟨i, lap⟩ := hd
    rw [buildRows] at h
    split at h
    · rename_i driver car tail hget1 hget2 htail
      cases h
      rcases List.mem_cons.mp he with rfl | he
      · exact hall (i, lap) (List.mem_cons_self _ _)
      · exact ih htail (fun x hx => hall x (List.mem_cons_of_mem _ hx)) e he
    · cases h

theorem update_player_index {s s' : AppData} {p : Packet2020}
    (h : update s p = some s') : s'.player_index = s.player_index := by
  cases p with
  | Motion => cases h; rfl
  | CarStatus pkt =>
    simp only [update] at h
    split at h <;> (cases h; rfl)
  | CarTelemetry pkt =>
    simp only [update] at h
    split at h <;> (cases h; rfl)
  | Participants pkt =>
    simp only [update] at h
    split at h
    · split at h <;> (cases h; rfl)
    · cases h; rfl
  | Lap pkt =>
    simp only [update] at h
    split at h
    · split at h
      · cases h; rfl
      · cases h
    · cases h; rfl
  | Event pkt =>
    simp only [update] at h
    split at h
    · split at h <;> (cases h; rfl)
    · cases h; rfl
  | OtherPacket => cases h; rfl

theorem update_nonlap_positions {s s' : AppData} {p : Packet2020}
    (h : update s p = some s') (hp : ∀ q, p ≠ Packet2020.Lap q) :
    s'.positions_table = s.positions_table := by
  cases p with
  | Motion => cases h; rfl
  | CarStatus pkt =>
    simp only [update] at h
    split at h <;> (cases h; rfl)
  | CarTelemetry pkt =>
    simp only [update] at h
    split at h <;> (cases h; rfl)
  | Participants pkt =>
    simp only [update] at h
    split at h
    · split at h <;> (cases h; rfl)
    · cases h; rfl
  | Lap pkt => exact absurd rfl (hp pkt)
  | Event pkt =>
    simp only [update] at h
    split at h
    · split at h <;> (cases h; rfl)
    · cases h; rfl
  | OtherPacket => cases h; rfl

theorem update_lap_positions {s s' : AppData} {pkt : LapPacket}
    (h : update s (Packet2020.Lap pkt) = some s') :
    s'.positions_table = s.positions_table ∨
      ∃ rows,
        buildRows pkt.header.player_car_index s.participants s.car_status
            (pkt.lap_data.enum.filter fun x => 0 < x.2.car_position) = some rows ∧
          s'.positions_table = sortRows rows := by
  simp only [update] at h
  split at h
  · split at h
    · rename_i rows hrows
      cases h
      exact Or.inr ⟨rows, hrows, rfl⟩
    · cases h
  · cases h
    exact Or.inl rfl

theorem update_posInv {s s' : AppData} {p : Packet2020}
    (h : update s p = some s')
    (hs : (∀ e ∈ s.positions_table, 0 < e.position) ∧ s.positions_table.Sorted rowLE) :
    (∀ e ∈ s'.positions_table, 0 < e.position) ∧ s'.positions_table.Sorted rowLE := by
  cases p with
  | Lap pkt =>
    rcases update_lap_positions h with heq | ⟨rows, hrows, heq⟩
    · rw [heq]; exact hs
    · rw [heq]
      constructor
      · intro e he
        refine buildRows_pos hrows (fun x hx => ?_) e (mem_sortRows.mp he)
        have hf := List.mem_filter.mp hx
        simpa using hf.2
      · exact sorted_sortRows rows
  | Motion =>
    rw [update_nonlap_positions h (fun q hq => by cases hq)]; exact hs
  | CarStatus pkt =>
    rw [update_nonlap_positions h (fun q hq => by cases hq)]; exact hs
  | CarTelemetry pkt =>
    rw [update_nonlap_positions h (fun q hq => by cases hq)]; exact hs
  | Participants pkt =>
    rw [update_nonlap_positions h (fun q hq => by cases hq)]; exact hs
  | Event pkt =>
    rw [update_nonlap_positions h (fun q hq => by cases hq)]; exact hs
  | OtherPacket =>
    rw [update_nonlap_positions h (fun q hq => by cases hq)]; exact hs

theorem reachable_posInv {s : AppData} (h : Reachable s) :
    (∀ e ∈ s.positions_table, 0 < e.position) ∧ s.positions_table.Sorted rowLE := by
  induction h with
  | init => exact ⟨fun e he => absurd he (List.not_mem_nil e), List.sorted_nil⟩
  | step hr hu ih => exact update_posInv hu ih

theorem reachable_player_index {s : AppData} (h : Reachable s) : s.player_index = 255 := by
  induction h with
  | init => rfl
  | step hr hu ih => rw [update_player_index hu]; exact ih

/-- Total whole seconds of a duration (the spec's "total whole seconds"). -/
def totalWholeSeconds (d : Dur) : Nat := d.millis / 1000

/-- The spec's duration-formatting rule, stated in its own words:
minutes = (total whole seconds / 60) mod 60, seconds = the exact
fractional remainder of total seconds mod 60 (millisecond precision),
rendered as minutes, a colon, and the seconds with three decimal
places. -/
def lapTimeSpec (d : Dur) : String :=
  let minutes := (totalWholeSeconds d / 60) % 60
  let secondsMil := d.millis % 60000
  Nat.repr minutes ++ ":" ++ (Nat.repr (secondsMil / 1000) ++ "." ++ pad3 (secondsMil % 1000))

theorem rne_mul_self (k b : Nat) (hb : 0 < b) : rne (k * b) b = k := by
  simp only [rne, Nat.mul_mod_left, Nat.mul_zero]
  rw [if_pos hb, Nat.mul_div_cancel _ hb]

theorem lapTime_of_exact (d : Dur)
    (h : 1000 * d.as_secs_f32_num = d.millis * 2 ^ 149) :
    to_lap_time d = lapTimeSpec d := by
  have hb : 0 < 2 ^ 149 := Nat.pos_pow_of_pos 149 (by decide)
  have key : 1000 * (d.as_secs_f32_num % (60 * 2 ^ 149)) = d.millis % 60000 * 2 ^ 149 := by
    rw [← Nat.mul_mod_mul_left, h]
    have h2 : 1000 * (60 * 2 ^ 149) = 60000 * 2 ^ 149 := by ring
    rw [h2, Nat.mul_mod_mul_right]
  simp only [to_lap_time, lapTimeSpec, fmt3, f32Rem60, totalWholeSeconds, Dur.as_secs]
  rw [key, rne_mul_self _ _ hb]

set_option maxRecDepth 400000 in
/-- C8 counterexample: at a duration of 10,000,000.250 seconds the
formatter renders "46:40.000" — `as_secs_f32` rounds 10,000,000.25 to
the f32 value 10,000,000 (the f32 spacing at that magnitude is 1) — but
the claim's exact fractional-remainder formula gives "46:40.250", so
the claimed rendering does not hold for every duration. -/
theorem C8_counterexample :
    to_lap_time ⟨10000000250⟩ = "46:40.000" ∧
      lapTimeSpec ⟨10000000250⟩ = "46:40.250" ∧
      to_lap_time ⟨10000000250⟩ ≠ lapTimeSpec ⟨10000000250⟩ :=
  ⟨by decide, by decide, by decide⟩

set_option maxRecDepth 400000 in
/-- C8 amended: the minutes component is the exact
(total whole seconds / 60) mod 60, but the seconds component is computed
from the duration converted to a single-precision float; whenever that
f32 conversion is exact (the f32 value, a numerator over 2^149, equals
millis / 1000) the rendering agrees with the claimed exact formula — in
particular 75.250 s renders as "1:15.250" and 3605.0 s renders as
"0:5.000". -/
theorem C8_lap_time_format :
    (∀ d : Dur, 1000 * d.as_secs_f32_num = d.millis * 2 ^ 149 →
        to_lap_time d = lapTimeSpec d) ∧
      to_lap_time ⟨75250⟩ = "1:15.250" ∧ to_lap_time ⟨3605000⟩ = "0:5.000" :=
  ⟨lapTime_of_exact, by decide, by decide⟩

set_option maxRecDepth 400000 in
theorem C8_witness : to_lap_time ⟨75250⟩ = lapTimeSpec ⟨75250⟩ :=
  C8_lap_time_format.1 ⟨75250⟩ (by decide)

/-- C9: the usage/wear color bucket maps [0,50] to safe (green),
(50,70] to warning (yellow) and everything above 70 to critical (red);
in particular 50 is safe, 51 and 70 warning, 71 critical. -/
theorem C9_wear_color_buckets :
    (∀ v : Nat, v ≤ 100 →
      ((v ≤ 50 → wear_color_percentage v = Color.Green) ∧
        (50 < v → v ≤ 70 → wear_color_percentage v = Color.Yellow) ∧
        (70 < v → wear_color_percentage v = Color.Red))) ∧
      wear_color_percentage 50 = Color.Green ∧
      wear_color_percentage 51 = Color.Yellow ∧
      wear_color_percentage 70 = Color.Yellow ∧
      wear_color_percentage 71 = Color.Red := by
  refine ⟨fun v _ => ⟨fun h1 => ?_, fun h1 h2 => ?_, fun h1 => ?_⟩,
    by decide, by decide, by decide, by decide⟩
  · rw [wear_color_percentage, if_pos h1]
  · rw [wear_color_percentage, if_neg (by omega), if_pos h2]
  · rw [wear_color_percentage, if_neg (by omega), if_neg (by omega)]

theorem C9_witness :
    wear_color_percentage 50 = Color.Green ∧ wear_color_percentage 71 = Color.Red :=
  ⟨(C9_wear_color_buckets.1 50 (by decide)).1 (by decide),
    (C9_wear_color_buckets.1 71 (by decide)).2.2 (by decide)⟩

/-- C4: a Lap packet applied while the driver roster or the car-status
roster is empty returns the state unchanged: a silent no-op, not an
error. -/
theorem C4_lap_noop_when_roster_empty :
    ∀ (s : AppData) (pkt : LapPacket),
      s.participants = [] ∨ s.car_status = [] →
      update s (Packet2020.Lap pkt) = some s := by
  intro s pkt h
  have hc : (!s.participants.isEmpty && !s.car_status.isEmpty) = false := by
    rcases h with h | h <;> simp [h]
  simp only [update, hc, Bool.false_eq_true, if_false]

theorem C4_witness :
    update initData (Packet2020.Lap { header := { player_car_index := 0 }, lap_data := [] })
      = some initData :=
  C4_lap_noop_when_roster_empty initData _ (Or.inl rfl)

/-- CarStatus packet exercising the wear copy: one car whose four corner
wear values are all distinct (rear-left 10, rear-right 20, front-left 30,
front-right 40). -/
def c1Pkt : CarStatusPacket :=
  { header := { player_car_index := 0 }
    car_status_data :=
      [ { visual_tyre_compound := "Soft"
          tyres_wear :=
            { rear_left := 10, rear_right := 20, front_left := 30, front_right := 40 } } ] }

/-- C1 (evaluation at the failing input): rebuilding the car-status
roster from a payload entry with distinct corner wear values 10/20/30/40
stores 10 in all four corner fields — the map copies `rear_left` into
`rear_right_tyre`, `front_left_tyre` and `front_right_tyre` — although
the payload's rear-right value is 20. -/
theorem C1_carstatus_wear_copies_rear_left :
    update initData (Packet2020.CarStatus c1Pkt) =
      some
        { initData with
          player_car_status :=
            some
              { visual_tyre_compound := "Soft"
                tyres_wear :=
                  { rear_left := 10, rear_right := 20, front_left := 30, front_right := 40 } }
          car_status :=
            [ { tyre := "Soft", rear_left_tyre := 10, rear_right_tyre := 10,
                front_left_tyre := 10, front_right_tyre := 10 } ] } ∧
      (c1Pkt.car_status_data.map fun c => c.tyres_wear.rear_right) = [20] :=
  ⟨rfl, rfl⟩

/-- A state whose rosters both hold exactly one car slot. -/
def c2State : AppData :=
  { initData with
    participants :=
      [ { driver := "Lewis Hamilton", team := "Mercedes", race_number := 44,
          nationality := 1, name := "Lewis Hamilton" } ]
    car_status :=
      [ { tyre := "Soft", rear_left_tyre := 10, rear_right_tyre := 10,
          front_left_tyre := 10, front_right_tyre := 10 } ] }

/-- A Lap packet whose payload has a classified entry (rank 2) at slot 1,
which is outside both one-element rosters. -/
def c2Lap : LapPacket :=
  { header := { player_car_index := 0 }
    lap_data :=
      [ { car_position := 1, best_lap_time := ⟨75250⟩, last_lap_time := ⟨76000⟩,
          best_lap_sector_1_time := ⟨25000⟩, current_lap_num := 3 },
        { car_position := 2, best_lap_time := ⟨80000⟩, last_lap_time := ⟨80500⟩,
          best_lap_sector_1_time := ⟨26000⟩, current_lap_num := 3 } ] }

/-- C2: with both rosters non-empty (one slot each) and a Lap payload
whose entry at slot 1 has rank 2 > 0, the per-slot `unwrap` lookup hits
its error branch: the update aborts (`none`) instead of skipping the
slot. -/
theorem C2_lap_lookup_panic_reachable :
    c2State.participants ≠ [] ∧ c2State.car_status ≠ [] ∧
      c2State.participants.length = 1 ∧ c2State.car_status.length = 1 ∧
      ((c2Lap.lap_data.get? 1).map fun l => l.car_position) = some 2 ∧
      update c2State (Packet2020.Lap c2Lap) = none := by
  refine ⟨by decide, by decide, rfl, rfl, rfl, rfl⟩

/-- C5: the driver roster is populated at most once. With a non-empty
roster a Participants packet changes nothing at all; with an empty
roster the packet rebuilds the roster keeping exactly the payload slots
with race number > 0. -/
theorem C5_participants_populated_once :
    (∀ (s : AppData) (pkt : ParticipantsPacket), s.participants ≠ [] →
      update s (Packet2020.Participants pkt) = some s) ∧
      (∀ (s : AppData) (pkt : ParticipantsPacket), s.participants = [] →
        ∃ s', update s (Packet2020.Participants pkt) = some s' ∧
          s'.participants =
            (pkt.participants.filter fun f => 0 < f.race_number).map toDriverDetails) := by
  constructor
  · intro s pkt h
    cases hl : s.participants with
    | nil => exact absurd hl h
    | cons a l => simp [update, hl]
  · intro s pkt h
    simp only [update, h, List.isEmpty_nil, if_true]
    exact ⟨_, rfl, rfl⟩

/-- Scenario A's first Participants packet: two car slots, race numbers
44 and 0. -/
def c5PktA : ParticipantsPacket :=
  { header := { player_car_index := 0 }
    participants :=
      [ { driver_name := "Lewis Hamilton", team_name := "Mercedes", race_number := 44,
          nationality := 1, name := "Lewis Hamilton" },
        { driver_name := "Unassigned", team_name := "None", race_number := 0,
          nationality := 0, name := "Unassigned" } ] }

/-- Scenario A's second Participants packet, with different data. -/
def c5PktB : ParticipantsPacket :=
  { header := { player_car_index := 0 }
    participants :=
      [ { driver_name := "Max Verstappen", team_name := "Red Bull", race_number := 33,
          nationality := 2, name := "Max Verstappen" } ] }

/-- The roster entry Scenario A expects (race number 44). -/
def c5Dd44 : DriverDetails :=
  { driver := "Lewis Hamilton", team := "Mercedes", race_number := 44,
    nationality := 1, name := "Lewis Hamilton" }

/-- The populated state after Scenario A's first packet. -/
def c5StateA : AppData :=
  { initData with player_details := some c5Dd44, participants := [c5Dd44] }

theorem C5_witness :
    ((c5PktA.participants.filter fun f => 0 < f.race_number).map toDriverDetails
        = [c5Dd44]) ∧
      (∃ s', update initData (Packet2020.Participants c5PktA) = some s' ∧
        s'.participants = [c5Dd44]) ∧
      update c5StateA (Packet2020.Participants c5PktB) = some c5StateA := by
  refine ⟨by decide, ?_, C5_participants_populated_once.1 c5StateA c5PktB (by decide)⟩
  obtain ⟨s', hs, hp⟩ := C5_participants_populated_once.2 initData c5PktA rfl
  exact ⟨s', hs, by rw [hp]; decide⟩

/-- CarStatus packet whose header carries the player's car-slot index 0. -/
def c6Pkt : CarStatusPacket :=
  { header := { player_car_index := 0 }
    car_status_data :=
      [ { visual_tyre_compound := "Soft"
          tyres_wear := { rear_left := 1, rear_right := 2, front_left := 3, front_right := 4 } } ] }

/-- The state after applying `c6Pkt` to the initial state. -/
def c6State : AppData :=
  { initData with
    player_car_status :=
      some
        { visual_tyre_compound := "Soft"
          tyres_wear := { rear_left := 1, rear_right := 2, front_left := 3, front_right := 4 } }
    car_status :=
      [ { tyre := "Soft", rear_left_tyre := 1, rear_right_tyre := 1,
          front_left_tyre := 1, front_right_tyre := 1 } ] }

/-- C6 counterexample: `c6Pkt` carries the player's car-slot index (0),
yet after applying it the stored player-slot index still holds the
sentinel 255, not the carried index — refuting the claim that observing
such a packet replaces the sentinel. -/
theorem C6_counterexample :
    c6Pkt.header.player_car_index = 0 ∧
      update initData (Packet2020.CarStatus c6Pkt) = some c6State ∧
      c6State.player_index = 255 ∧ c6State.player_index ≠ c6Pkt.header.player_car_index :=
  ⟨rfl, rfl, rfl, by decide⟩

/-- C6 amended: the stored player-slot index holds the sentinel 255 in
every reachable state — no packet handler ever writes the field; each
handler reads the player's car-slot index from its own packet header
instead. -/
theorem C6_player_index_always_sentinel :
    ∀ s : AppData, Reachable s → s.player_index = 255 :=
  fun _ h => reachable_player_index h

theorem C6_witness : c6State.player_index = 255 := by
  have h1 : update initData (Packet2020.CarStatus c6Pkt) = some c6State := by rfl
  exact C6_player_index_always_sentinel c6State (Reachable.step Reachable.init h1)

theorem splitSp_no_space : ∀ l : List Char, ' ' ∉ l → splitSp l = [l] := by
  intro l
  induction l with
  | nil => intro _; rfl
  | cons c cs ih =>
    intro h
    have hc : ¬(c = ' ') := fun e => h (by rw [e]; exact List.mem_cons_self _ _)
    simp only [splitSp, ih (fun hm => h (List.mem_cons_of_mem _ hm))]
    simp [hc]

/-- C7 counterexample: the driver name "Hamilton" contains no space, and
the last-name extraction hits its failure branch on it (the split yields
a single token, so indexing the second token is out of bounds) — the
extraction is not guarded. -/
theorem C7_counterexample :
    ' ' ∉ "Hamilton".data ∧ last_name "Hamilton" = none :=
  ⟨by decide, by decide⟩

/-- C7 amended: the last-name extraction is unguarded — for every driver
name containing no space, taking the second token of the whitespace
split fails (the panic branch is taken). -/
theorem C7_no_space_name_fails :
    ∀ name : String, ' ' ∉ name.data → last_name name = none := by
  intro name h
  simp only [last_name, splitSp_no_space name.data h]
  rfl

theorem C7_witness : last_name "Hamilton" = none :=
  C7_no_space_name_fails "Hamilton" (by decide)

/-- C3: in every reachable state each position row has classification
rank > 0, and any successful Lap update leaves the position sequence
sorted ascending by rank. -/
theorem C3_positions_rank_sorted :
    ∀ s : AppData, Reachable s →
      ((∀ e ∈ s.positions_table, 0 < e.position) ∧
        ∀ (pkt : LapPacket) (s' : AppData),
          update s (Packet2020.Lap pkt) = some s' → s'.positions_table.Sorted rowLE) := by
  intro s hs
  exact ⟨(reachable_posInv hs).1,
    fun pkt s' h => (reachable_posInv (Reachable.step hs h)).2⟩

/-- C10: a SpeedTrap event records the reading exactly when the event's
car slot equals the carried player car index; for any other car slot
the state is returned unchanged. -/
theorem C10_speed_trap_player_only :
    ∀ (s : AppData) (pkt : EventPacket) (st : SpeedTrapData),
      pkt.event = Event.SpeedTrap st →
      ((st.vehicle_index = pkt.header.player_car_index →
          update s (Packet2020.Event pkt) = some { s with speed_trap := some st.speed }) ∧
        (st.vehicle_index ≠ pkt.header.player_car_index →
          update s (Packet2020.Event pkt) = some s)) := by
  intro s pkt st hev
  constructor <;> intro hv
  · simp [update, hev, hv]
  · simp [update, hev, hv]

/-- SpeedTrap event for the player's own car slot. -/
def c10PktEq : EventPacket :=
  { header := { player_car_index := 0 }
    event := Event.SpeedTrap { vehicle_index := 0, speed := 301 } }

/-- SpeedTrap event for a non-player car slot. -/
def c10PktNe : EventPacket :=
  { header := { player_car_index := 0 }
    event := Event.SpeedTrap { vehicle_index := 5, speed := 280 } }

theorem C10_witness :
    update initData (Packet2020.Event c10PktEq)
        = some { initData with speed_trap := some 301 } ∧
      update initData (Packet2020.Event c10PktNe) = some initData :=
  ⟨(C10_speed_trap_player_only initData c10PktEq _ rfl).1 rfl,
    (C10_speed_trap_player_only initData c10PktNe _ rfl).2 (by decide)⟩

/-- Roster entry for slot 0 of the C3 witness scenario. -/
def c3Dd1 : DriverDetails :=
  { driver := "Lewis Hamilton", team := "Mercedes", race_number := 44,
    nationality := 1, name := "Lewis Hamilton" }

/-- Roster entry for slot 1 of the C3 witness scenario. -/
def c3Dd2 : DriverDetails :=
  { driver := "Max Verstappen", team := "Red Bull", race_number := 33,
    nationality := 2, name := "Max Verstappen" }

/-- Participants packet populating both slots. -/
def c3PktP : ParticipantsPacket :=
  { header := { player_car_index := 0 }
    participants :=
      [ { driver_name := "Lewis Hamilton", team_name := "Mercedes", race_number := 44,
          nationality := 1, name := "Lewis Hamilton" },
        { driver_name := "Max Verstappen", team_name := "Red Bull", race_number := 33,
          nationality := 2, name := "Max Verstappen" } ] }

/-- State after the Participants packet. -/
def c3SA : AppData :=
  { initData with player_details := some c3Dd1, participants := [c3Dd1, c3Dd2] }

/-- CarStatus packet populating both slots. -/
def c3PktC : CarStatusPacket :=
  { header := { player_car_index := 0 }
    car_status_data :=
      [ { visual_tyre_compound := "Soft"
          tyres_wear := { rear_left := 10, rear_right := 12, front_left := 14, front_right := 16 } },
        { visual_tyre_compound := "Medium"
          tyres_wear := { rear_left := 20, rear_right := 22, front_left := 24, front_right := 26 } } ] }

/-- State after the CarStatus packet. -/
def c3SB : AppData :=
  { c3SA with
    player_car_status :=
      some
        { visual_tyre_compound := "Soft"
          tyres_wear := { rear_left := 10, rear_right := 12, front_left := 14, front_right := 16 } }
    car_status :=
      [ { tyre := "Soft", rear_left_tyre := 10, rear_right_tyre := 10,
          front_left_tyre := 10, front_right_tyre := 10 },
        { tyre := "Medium", rear_left_tyre := 20, rear_right_tyre := 20,
          front_left_tyre := 20, front_right_tyre := 20 } ] }

/-- Lap packet with ranks [2, 1] over the two slots. -/
def c3Lap : LapPacket :=
  { header := { player_car_index := 0 }
    lap_data :=
      [ { car_position := 2, best_lap_time := ⟨75250⟩, last_lap_time := ⟨76000⟩,
          best_lap_sector_1_time := ⟨25000⟩, current_lap_num := 3 },
        { car_position := 1, best_lap_time := ⟨74000⟩, last_lap_time := ⟨74500⟩,
          best_lap_sector_1_time := ⟨24600⟩, current_lap_num := 3 } ] }

/-- State after the Lap packet. -/
def c3SC : AppData := (update c3SB (Packet2020.Lap c3Lap)).getD initData

/-- Fallback row for `headD` in the C3 witness. -/
def c3Fallback : PositionTable :=
  { is_player := false, position := 1, driver := c3Dd1, best_lap := "", last_lap := "",
    s1 := "", s2 := "", s3 := "", tyre := "", current_lap_num := 0 }

set_option maxRecDepth 400000 in
theorem C3_witness :
    c3SC.positions_table.Sorted rowLE ∧
      0 < (c3SC.positions_table.headD c3Fallback).position := by
  have h1 : update initData (Packet2020.Participants c3PktP) = some c3SA := by rfl
  have h2 : update c3SA (Packet2020.CarStatus c3PktC) = some c3SB := by rfl
  have h3 : update c3SB (Packet2020.Lap c3Lap) = some c3SC := by rfl
  have hB : Reachable c3SB := Reachable.step (Reachable.step Reachable.init h1) h2
  refine ⟨(C3_positions_rank_sorted c3SB hB).2 c3Lap c3SC h3, ?_⟩
  exact (C3_positions_rank_sorted c3SC (Reachable.step hB h3)).1 _ (by decide)

end F1Tui
